import Mathlib

/-!
Verification development for the Smolder web UI's parameter-marshalling and
call-dispatch logic.

The TypeScript source is shallowly embedded as follows:

* JavaScript runtime values produced by the marshalling code (booleans,
  strings, and the results of `JSON.parse`) are modelled by the inductive
  type `Json`.  A JSON number is kept as its source literal text (the
  claims under study never depend on floating-point identification of
  distinct literals, only on the number/string distinction, which the
  model preserves exactly).
* `JSON.parse` is modelled by `jsonParse`, a total recursive-descent
  parser for the JSON grammar (ECMA-404): it returns `none` exactly where
  `JSON.parse` would throw; the `try { JSON.parse } catch` in the source
  is modelled by matching on that `Option`.
* JavaScript strings are modelled by Lean `String` with character-based
  indexing; `toLowerCase`, `startsWith`, `endsWith`, `slice` are modelled
  by the corresponding character-level Lean operations (all inputs
  appearing in the claims are ASCII, where the two agree).
* `fetch` and the API client are modelled by an explicit outcome value
  (`FetchOutcome`) passed to the embedded function; thrown JavaScript
  values are modelled by `JsThrown` and `Except`.
-/

/-- A JavaScript runtime value as produced by the marshalling code:
`null`, booleans, numbers (kept as their JSON literal text), strings,
arrays, and objects (ordered field lists, as delivered by the parser). -/
inductive Json where
  | null : Json
  | bool : Bool → Json
  | num : String → Json
  | str : String → Json
  | arr : List Json → Json
  | obj : List (String × Json) → Json

/-- JSON insignificant whitespace (ECMA-404): space, tab, line feed,
carriage return. -/
def isJsonWs (c : Char) : Bool :=
  c = ' ' || c = '\t' || c = '\n' || c = '\r'

/-- Drop leading JSON whitespace. -/
def skipWs : List Char → List Char
  | [] => []
  | c :: rest => if isJsonWs c then skipWs rest else c :: rest

/-- Value of a hexadecimal digit, if the character is one. -/
def hexVal (c : Char) : Option Nat :=
  if '0' ≤ c ∧ c ≤ '9' then some (c.toNat - '0'.toNat)
  else if 'a' ≤ c ∧ c ≤ 'f' then some (c.toNat - 'a'.toNat + 10)
  else if 'A' ≤ c ∧ c ≤ 'F' then some (c.toNat - 'A'.toNat + 10)
  else none

/-- Parse the body of a JSON string literal (after the opening quote),
accumulating decoded characters in reverse.  Mirrors `JSON.parse`:
unescaped control characters are rejected, the escapes
`\" \\ \/ \b \f \n \r \t \uXXXX` are decoded.  (Code points outside
Lean's scalar values, i.e. unpaired surrogates, are mapped to the
default character — such inputs occur in no claim.) -/
def parseStrBody : List Char → List Char → Option (String × List Char)
  | acc, '"' :: rest => some (String.mk acc.reverse, rest)
  | acc, '\\' :: esc =>
    match esc with
    | '"' :: rest => parseStrBody ('"' :: acc) rest
    | '\\' :: rest => parseStrBody ('\\' :: acc) rest
    | '/' :: rest => parseStrBody ('/' :: acc) rest
    | 'b' :: rest => parseStrBody ('\x08' :: acc) rest
    | 'f' :: rest => parseStrBody ('\x0c' :: acc) rest
    | 'n' :: rest => parseStrBody ('\n' :: acc) rest
    | 'r' :: rest => parseStrBody ('\r' :: acc) rest
    | 't' :: rest => parseStrBody ('\t' :: acc) rest
    | 'u' :: h1 :: h2 :: h3 :: h4 :: rest => do
        let v1 ← hexVal h1
        let v2 ← hexVal h2
        let v3 ← hexVal h3
        let v4 ← hexVal h4
        parseStrBody (Char.ofNat (((v1 * 16 + v2) * 16 + v3) * 16 + v4) :: acc) rest
    | _ => none
  | acc, c :: rest => if c.toNat < 32 then none else parseStrBody (c :: acc) rest
  | _, [] => none

/-- Take a maximal run of decimal digits. -/
def takeDigits : List Char → List Char × List Char
  | [] => ([], [])
  | c :: rest =>
    if c.isDigit then
      let (ds, r) := takeDigits rest
      (c :: ds, r)
    else ([], c :: rest)

/-- Parse an optional JSON fraction part (`.` followed by at least one
digit); returns the matched characters (possibly none) and the rest. -/
def parseFrac : List Char → Option (List Char × List Char)
  | '.' :: rest =>
    match takeDigits rest with
    | ([], _) => none
    | (ds, r) => some ('.' :: ds, r)
  | s => some ([], s)

/-- Parse an optional JSON exponent part (`e`/`E`, optional sign, at
least one digit); returns the matched characters and the rest. -/
def parseExp : List Char → Option (List Char × List Char)
  | [] => some ([], [])
  | c :: rest =>
    if c = 'e' ∨ c = 'E' then
      let (sign, r1) : List Char × List Char :=
        match rest with
        | '+' :: r => (['+'], r)
        | '-' :: r => (['-'], r)
        | r => ([], r)
      match takeDigits r1 with
      | ([], _) => none
      | (ds, r2) => some (c :: (sign ++ ds), r2)
    else some ([], c :: rest)

/-- Parse a JSON number literal (`-? int frac? exp?`, no leading zeros),
returning its text and the rest of the input. -/
def parseNum (s : List Char) : Option (String × List Char) :=
  let (sign, s1) : List Char × List Char :=
    match s with
    | '-' :: r => (['-'], r)
    | _ => ([], s)
  match s1 with
  | '0' :: r => do
      let (frac, r1) ← parseFrac r
      let (ex, r2) ← parseExp r1
      pure (String.mk (sign ++ '0' :: (frac ++ ex)), r2)
  | c :: r =>
      if c.isDigit then do
        let (ds, r0) := takeDigits r
        let (frac, r1) ← parseFrac r0
        let (ex, r2) ← parseExp r1
        pure (String.mk (sign ++ c :: (ds ++ frac ++ ex)), r2)
      else none
  | [] => none

mutual

/-- Recursive-descent JSON value parser.  `fuel` bounds recursion depth
(initialised to more than the input length, so it never runs out on the
way to an accepting parse: every recursive call is preceded by the
consumption of at least one input character). -/
def parseValue : Nat → List Char → Option (Json × List Char)
  | 0, _ => none
  | fuel + 1, s =>
    match skipWs s with
    | '{' :: rest =>
      (match skipWs rest with
       | '}' :: r2 => some (Json.obj [], r2)
       | r2 => do
           let (fields, r3) ← parseFields fuel r2
           pure (Json.obj fields, r3))
    | '[' :: rest =>
      (match skipWs rest with
       | ']' :: r2 => some (Json.arr [], r2)
       | r2 => do
           let (elems, r3) ← parseElems fuel r2
           pure (Json.arr elems, r3))
    | '"' :: rest => do
        let (s, r2) ← parseStrBody [] rest
        pure (Json.str s, r2)
    | 't' :: 'r' :: 'u' :: 'e' :: rest => some (Json.bool true, rest)
    | 'f' :: 'a' :: 'l' :: 's' :: 'e' :: rest => some (Json.bool false, rest)
    | 'n' :: 'u' :: 'l' :: 'l' :: rest => some (Json.null, rest)
    | s2 => do
        let (lit, r2) ← parseNum s2
        pure (Json.num lit, r2)

/-- Parse one or more comma-separated array elements up to `]`. -/
def parseElems : Nat → List Char → Option (List Json × List Char)
  | 0, _ => none
  | fuel + 1, s => do
      let (v, r) ← parseValue fuel s
      match skipWs r with
      | ',' :: r2 => do
          let (vs, r3) ← parseElems fuel r2
          pure (v :: vs, r3)
      | ']' :: r2 => pure ([v], r2)
      | _ => none

/-- Parse one or more comma-separated object members up to a closing
brace. -/
def parseFields : Nat → List Char → Option (List (String × Json) × List Char)
  | 0, _ => none
  | fuel + 1, s =>
    match skipWs s with
    | '"' :: rest => do
        let (key, r1) ← parseStrBody [] rest
        match skipWs r1 with
        | ':' :: r2 => do
            let (v, r3) ← parseValue fuel r2
            match skipWs r3 with
            | ',' :: r4 => do
                let (fs, r5) ← parseFields fuel r4
                pure ((key, v) :: fs, r5)
            | '}' :: r4 => pure ([(key, v)], r4)
            | _ => none
        | _ => none
    | _ => none

end

/-- Model of JavaScript `JSON.parse`: parse a complete JSON text
(allowing surrounding whitespace); `none` models a thrown
`SyntaxError`. -/
def jsonParse (text : String) : Option Json :=
  match parseValue (text.length + 1) text.data with
  | some (j, rest) => if skipWs rest = [] then some j else none
  | none => none

/-- Does the first character list occur as a prefix of the second? -/
def charsPrefix : List Char → List Char → Bool
  | [], _ => true
  | _ :: _, [] => false
  | c :: cs, d :: ds => c == d && charsPrefix cs ds

/-- Model of JavaScript `String.prototype.startsWith`. -/
def jsStartsWith (s pre : String) : Bool :=
  charsPrefix pre.data s.data

/-- Model of JavaScript `String.prototype.endsWith`. -/
def jsEndsWith (s suf : String) : Bool :=
  charsPrefix suf.data.reverse s.data.reverse

/-- Model of JavaScript `String.prototype.toLowerCase` (the inputs of
interest are ASCII, where lower-casing is character-wise). -/
def jsToLower (s : String) : String :=
  String.mk (s.data.map Char.toLower)

/-- One parameter description from the contract interface
(`ParamInfo` in `api/types.ts`): a name, a type-tag string such as
`uint256`, `bool`, `address`, `uint256[]` or `tuple`, and — for tuples —
an optional list of component descriptions (`components?: ParamInfo[]`,
where `none` models the field being `undefined`). -/
inductive ParamInfo where
  | mk (name : String) (param_type : String) (components : Option (List ParamInfo)) : ParamInfo

/-- Field accessor: `name`. -/
def ParamInfo.name : ParamInfo → String
  | .mk n _ _ => n

/-- Field accessor: `param_type`. -/
def ParamInfo.param_type : ParamInfo → String
  | .mk _ t _ => t

/-- Field accessor: `components`. -/
def ParamInfo.components : ParamInfo → Option (List ParamInfo)
  | .mk _ _ c => c

/-- The body of the `func.inputs.map` callback in `parseParams`
(function-form component), which is textually duplicated in
`parseConstructorArgs` of both deployment components: coerce one raw
input string according to the parameter's type tag.

* empty text: `false` for `bool`, the text `"0"` for a `param_type`
  starting with `uint` or `int`, the empty text otherwise;
* non-empty text on `bool`: `rawValue.toLowerCase() === "true"`;
* non-empty text on an array/tuple/`components`-bearing parameter:
  `try { return JSON.parse(rawValue) } catch { return rawValue }`;
* anything else: the raw text unchanged.

Note that `input.components` is tested for JavaScript truthiness, so any
present array (even an empty one) selects the JSON branch — modelled by
`Option.isSome`. -/
def coerceParam (input : ParamInfo) (rawValue : String) : Json :=
  if rawValue = "" then
    if input.param_type = "bool" then Json.bool false
    else if jsStartsWith input.param_type "uint" || jsStartsWith input.param_type "int" then
      Json.str "0"
    else Json.str ""
  else if input.param_type = "bool" then
    Json.bool (jsToLower rawValue == "true")
  else if jsEndsWith input.param_type "[]" || input.param_type == "tuple"
      || input.components.isSome then
    match jsonParse rawValue with
    | some parsed => parsed
    | none => Json.str rawValue
  else Json.str rawValue

/-- Model of `parseParams` (function-form component): map over the
ordered schema list, looking each name up in the raw-input record
(`params[input.name] ?? ""`, the record modelled as a partial map) and
coercing.  `parseConstructorArgs` in the two deployment components is
the same map over `constructorArgs`. -/
def parseParams (inputs : List ParamInfo) (params : String → Option String) : List Json :=
  inputs.map (fun input => coerceParam input ((params input.name).getD ""))

/-- A thrown JavaScript value as observed by a `catch` clause: either an
`Error` instance carrying a message, or any other value (for which
`err instanceof Error` is false). -/
inductive JsThrown where
  | error (message : String) : JsThrown
  | other : JsThrown

/-- The behaviour of one `fetch` call, supplied to the embedded client
function as an explicit value: either the returned promise rejects
(transport failure), or a response arrives with an `ok` flag, a numeric
`status`, a body text, and — for `ok` responses — the decoded JSON body
of type `R`. -/
inductive FetchOutcome (R : Type) where
  | network (e : JsThrown) : FetchOutcome R
  | response (ok : Bool) (status : Nat) (bodyText : String) (parsed : R) : FetchOutcome R

/-- Model of `postJson` in `api/client.ts`: a rejected `fetch` propagates
its thrown value; a non-`ok` response throws
`new Error(text || `API error: status`)` (the body text, or the generic
text when the body is empty); an `ok` response resolves to its decoded
body. -/
def postJson (R : Type) (outcome : FetchOutcome R) : Except JsThrown R :=
  match outcome with
  | .network e => Except.error e
  | .response ok status bodyText parsed =>
    if ok then Except.ok parsed
    else Except.error (JsThrown.error
      (if bodyText = "" then "API error: " ++ toString status else bodyText))

/-- Model of `err instanceof Error ? err.message : "Unknown error"`. -/
def caughtMessage : JsThrown → String
  | .error m => m
  | .other => "Unknown error"

/-- `FunctionInfo` from `api/types.ts` (the fields the embedded logic
reads). -/
structure FunctionInfo where
  name : String
  signature : String
  inputs : List ParamInfo
  outputs : List ParamInfo
  state_mutability : String

/-- `SendRequest` from `api/types.ts`: the body posted to the send
(write) endpoint; `value = none` models the `value` key being
`undefined`, i.e. absent from the serialised request. -/
structure SendRequest where
  function_name : String
  params : List Json
  wallet_name : String
  value : Option String

/-- `CallRequest` from `api/types.ts`: the body posted to the call
(read) endpoint. -/
structure CallRequest where
  function_name : String
  params : List Json

/-- `SendResponse` from `api/types.ts`. -/
structure SendResponse where
  tx_hash : String
  history_id : Nat

/-- `CallResponse` from `api/types.ts` (its `result` field is an
arbitrary JSON value). -/
structure CallResponse where
  result : Json

/-- The `CallResult` record set by `handleSubmit` in the function-form
component (`none` fields model `undefined`). -/
structure CallResult where
  success : Bool
  data : Option Json
  txHash : Option String
  error : Option String

/-- Everything observable about one run of `handleSubmit`: the final
result record, the requests passed to the send and call collaborators
(in order), and the arguments of the `onTxSent?.(...)` invocations. -/
structure SubmitEffects where
  result : CallResult
  sendRequests : List SendRequest
  callRequests : List CallRequest
  txSentCalls : List String

/-- Model of `handleSubmit` in the function-form component.  The closure
state (`isWrite`, `selectedWallet`, `value`, `func`, `params`) becomes
explicit arguments; the collaborator behaviour for this submission is
supplied as `FetchOutcome` values.  Mirrors the source:

* write mode with a falsy (empty) wallet selection throws
  `Error("Please select a wallet")` before any request is built; the
  surrounding `catch` turns it into a failure result;
* write mode posts a `SendRequest` whose `value` field is
  `value || undefined`; on success it records the transaction hash and
  calls `onTxSent` with it;
* read mode posts a `CallRequest` and records the response payload;
* any caught throw produces
  `error: err instanceof Error ? err.message : "Unknown error"`. -/
def handleSubmit (isWrite : Bool) (selectedWallet valueField : String)
    (func : FunctionInfo) (params : String → Option String)
    (sendOut : FetchOutcome SendResponse) (callOut : FetchOutcome CallResponse) :
    SubmitEffects :=
  let parsedParams := parseParams func.inputs params
  if isWrite then
    if selectedWallet = "" then
      { result := { success := false, data := none, txHash := none,
                    error := some "Please select a wallet" },
        sendRequests := [], callRequests := [], txSentCalls := [] }
    else
      let req : SendRequest :=
        { function_name := func.name, params := parsedParams,
          wallet_name := selectedWallet,
          value := if valueField = "" then none else some valueField }
      match postJson SendResponse sendOut with
      | .ok resp =>
          { result := { success := true, data := none,
                        txHash := some resp.tx_hash, error := none },
            sendRequests := [req], callRequests := [],
            txSentCalls := [resp.tx_hash] }
      | .error e =>
          { result := { success := false, data := none, txHash := none,
                        error := some (caughtMessage e) },
            sendRequests := [req], callRequests := [], txSentCalls := [] }
  else
    let req : CallRequest := { function_name := func.name, params := parsedParams }
    match postJson CallResponse callOut with
    | .ok resp =>
        { result := { success := true, data := some resp.result,
                      txHash := none, error := none },
          sendRequests := [], callRequests := [req], txSentCalls := [] }
    | .error e =>
        { result := { success := false, data := none, txHash := none,
                      error := some (caughtMessage e) },
          sendRequests := [], callRequests := [req], txSentCalls := [] }

/-- The fields of a `Deployment` record used by the deployment-details
page logic. -/
structure Deployment where
  id : Nat

/-- A pending `setTimeout(trigger, delayMs)` that will call the
history-list collaborator for `deploymentId` and install its result. -/
structure ScheduledRefresh where
  deploymentId : Nat
  delayMs : Nat

/-- Model of `handleTxSent` in the deployment-details page: if a
deployment is loaded, schedule `loadHistory(deployment.id)` to run after
2000 ms; otherwise do nothing. -/
def handleTxSent (deployment : Option Deployment) : List ScheduledRefresh :=
  match deployment with
  | some d => [{ deploymentId := d.id, delayMs := 2000 }]
  | none => []

/-- The refreshes scheduled as a consequence of one `handleSubmit` run on
the deployment-details page, where the form's `onTxSent` prop is
`handleTxSent`: one `handleTxSent` invocation per `onTxSent` call. -/
def refreshesAfterSubmit (deployment : Option Deployment) (eff : SubmitEffects) :
    List ScheduledRefresh :=
  eff.txSentCalls.foldr (fun _ acc => handleTxSent deployment ++ acc) []

/-- Semantics of `setTimeout`: a callback scheduled at time `setAt` with
delay `delay` can only run at a time `fireAt` at which the delay has
elapsed (times in milliseconds). -/
def timerMayFire (setAt delay fireAt : Nat) : Prop :=
  setAt + delay ≤ fireAt

/-- Model of `loadHistory` in the deployment-details page: fetch the
deployment's history list from the collaborator and replace the
displayed list with the result; a fetch failure is swallowed and leaves
the displayed list unchanged (history entries are treated opaquely). -/
def loadHistory {α : Type} (fetched : Except JsThrown (List α)) (displayed : List α) :
    List α :=
  match fetched with
  | .ok historyData => historyData
  | .error _ => displayed

/-- `ConstructorInfo` from `api/types.ts` (constructor inputs reuse the
parameter-description shape). -/
structure ConstructorInfo where
  inputs : List ParamInfo
  state_mutability : String

/-- Model of `parseConstructorArgs`, shared verbatim between the deploy
modal and the deploy page: with no artifact details or no constructor
(`!artifactDetails?.constructor`) the argument list is empty; otherwise
each constructor input is coerced from `constructorArgs[input.name] ?? ""`
by the same per-parameter rule as `parseParams`. -/
def parseConstructorArgs (ctor : Option ConstructorInfo)
    (constructorArgs : String → Option String) : List Json :=
  match ctor with
  | none => []
  | some c => c.inputs.map (fun input => coerceParam input ((constructorArgs input.name).getD ""))

/-- `DeployRequest` from `api/types.ts`: the body posted to the deploy
endpoint; `value = none` models an absent (`undefined`) `value` key. -/
structure DeployRequest where
  artifact_name : String
  network_name : String
  wallet_name : String
  constructor_args : List Json
  value : Option String

/-- The request built by `handleDeploy` in the deploy-modal component:
`api.deploy({artifact_name, network_name, wallet_name,
constructor_args: parseConstructorArgs(), value: value || undefined})`. -/
def handleDeployModalRequest (artifactName selectedNetwork selectedWallet valueField : String)
    (ctor : Option ConstructorInfo) (constructorArgs : String → Option String) :
    DeployRequest :=
  { artifact_name := artifactName, network_name := selectedNetwork,
    wallet_name := selectedWallet,
    constructor_args := parseConstructorArgs ctor constructorArgs,
    value := if valueField = "" then none else some valueField }

/-- The request built by `handleDeploy` in the full-page deploy
component — a textual duplicate of the modal's, with the artifact name
taken from the page's selection state. -/
def handleDeployPageRequest (selectedArtifact selectedNetwork selectedWallet valueField : String)
    (ctor : Option ConstructorInfo) (constructorArgs : String → Option String) :
    DeployRequest :=
  { artifact_name := selectedArtifact, network_name := selectedNetwork,
    wallet_name := selectedWallet,
    constructor_args := parseConstructorArgs ctor constructorArgs,
    value := if valueField = "" then none else some valueField }

/-- Model of `truncateAddress` in `lib/format.ts`: a string of at most
13 characters is returned unchanged; otherwise the result is
`slice(0, 6) + "..." + slice(-4)` (the first six characters, an
ellipsis, and the last four), built here on the character list. -/
def truncateAddress (address : String) : String :=
  if address.length ≤ 13 then address
  else String.mk (address.data.take 6 ++ ['.', '.', '.']
    ++ address.data.drop (address.data.length - 4))

/-- Model of JavaScript `String.prototype.trim` (the characters relevant
to the inputs of interest are ASCII whitespace). -/
def jsTrim (s : String) : String :=
  String.mk (((s.data.dropWhile Char.isWhitespace).reverse.dropWhile Char.isWhitespace).reverse)

/-- C9: `truncateAddress` returns strings of length at most 13 unchanged,
and otherwise returns the first six characters, an ellipsis, and the
last four characters — a string of length exactly 13. -/
theorem claim_C9 (s : String) :
    (s.length ≤ 13 → truncateAddress s = s) ∧
    (13 < s.length →
      truncateAddress s =
        String.mk (s.data.take 6 ++ ['.', '.', '.'] ++ s.data.drop (s.data.length - 4)) ∧
      (truncateAddress s).length = 13) := by
  have hlen : s.length = s.data.length := rfl
  constructor
  · intro h
    simp [truncateAddress, h]
  · intro h
    have hn : ¬ s.length ≤ 13 := by omega
    refine ⟨by simp [truncateAddress, hn], ?_⟩
    have : truncateAddress s =
        String.mk (s.data.take 6 ++ ['.', '.', '.'] ++ s.data.drop (s.data.length - 4)) := by
      simp [truncateAddress, hn]
    rw [this]
    show (s.data.take 6 ++ ['.', '.', '.'] ++ s.data.drop (s.data.length - 4)).length = 13
    rw [hlen] at h
    simp [List.length_append, List.length_take, List.length_drop]
    omega

/-- Concrete instance of C9 on an 18-character address. -/
theorem claim_C9_witness :
    13 < ("0x1234567890abcdef" : String).length ∧
    (truncateAddress "0x1234567890abcdef").length = 13 :=
  ⟨by decide, ((claim_C9 "0x1234567890abcdef").2 (by decide)).2⟩

/-- C6: marshalling produces one output per schema, in the schemas'
order, looking each schema's name up in the raw-input map and treating
absent keys as the empty text.  (The embedding `parseParams` is a pure
Lean function, so determinism holds by construction.) -/
theorem claim_C6 (inputs : List ParamInfo) (params : String → Option String) :
    (parseParams inputs params).length = inputs.length ∧
    ∀ (i : Nat) (input : ParamInfo), inputs[i]? = some input →
      (parseParams inputs params)[i]? =
        some (coerceParam input ((params input.name).getD "")) := by
  refine ⟨by simp [parseParams], ?_⟩
  intro i input h
  simp [parseParams, List.getElem?_map, h]

/-- Concrete instance of C6: schemas `[b, a]` with inputs
`a = "1"`, `b = "2"` marshal to `["2", "1"]` in schema order. -/
theorem claim_C6_witness :
    parseParams [ParamInfo.mk "b" "uint256" none, ParamInfo.mk "a" "uint256" none]
        (fun n => if n = "a" then some "1" else if n = "b" then some "2" else none) =
      [Json.str "2", Json.str "1"] := by
  have h := (claim_C6 [ParamInfo.mk "b" "uint256" none, ParamInfo.mk "a" "uint256" none]
    (fun n => if n = "a" then some "1" else if n = "b" then some "2" else none)).2
    0 (ParamInfo.mk "b" "uint256" none) rfl
  simp only [List.getElem?_cons_zero] at h
  rfl

/-- C5: coercing empty raw text yields `false` for `bool`, the text
`"0"` for any type tag starting with `uint` or `int` (arrays included —
the empty case short-circuits before the structural branch), and the
empty text otherwise; non-empty raw text on a numeric non-array,
non-structured parameter is returned verbatim. -/
theorem claim_C5 (p : ParamInfo) (raw : String) :
    (p.param_type = "bool" → coerceParam p "" = Json.bool false) ∧
    ((jsStartsWith p.param_type "uint" = true ∨ jsStartsWith p.param_type "int" = true) →
      coerceParam p "" = Json.str "0") ∧
    (p.param_type ≠ "bool" → jsStartsWith p.param_type "uint" = false →
      jsStartsWith p.param_type "int" = false → coerceParam p "" = Json.str "") ∧
    (raw ≠ "" →
      (jsStartsWith p.param_type "uint" = true ∨ jsStartsWith p.param_type "int" = true) →
      jsEndsWith p.param_type "[]" = false → p.components = none →
      coerceParam p raw = Json.str raw) := by
  have hboolu : jsStartsWith "bool" "uint" = false := by decide
  have hbooli : jsStartsWith "bool" "int" = false := by decide
  have htupu : jsStartsWith "tuple" "uint" = false := by decide
  have htupi : jsStartsWith "tuple" "int" = false := by decide
  refine ⟨?_, ?_, ?_, ?_⟩
  · intro hb
    simp [coerceParam, hb]
  · intro hnum
    have hnb : p.param_type ≠ "bool" := by
      intro he
      rw [he] at hnum
      rcases hnum with h | h
      · rw [hboolu] at h; cases h
      · rw [hbooli] at h; cases h
    rcases hnum with h | h <;> simp [coerceParam, hnb, h]
  · intro hnb hu hi
    simp [coerceParam, hnb, hu, hi]
  · intro hne hnum hends hcomp
    have hnb : p.param_type ≠ "bool" := by
      intro he
      rw [he] at hnum
      rcases hnum with h | h
      · rw [hboolu] at h; cases h
      · rw [hbooli] at h; cases h
    have hnt : p.param_type ≠ "tuple" := by
      intro he
      rw [he] at hnum
      rcases hnum with h | h
      · rw [htupu] at h; cases h
      · rw [htupi] at h; cases h
    simp [coerceParam, hne, hnb, hnt, hends, hcomp]

/-- Concrete instance of C5: an empty `uint256` input coerces to `"0"`,
and a 30-digit `uint256` input is returned verbatim. -/
theorem claim_C5_witness :
    coerceParam (ParamInfo.mk "amount" "uint256" none) "" = Json.str "0" ∧
    coerceParam (ParamInfo.mk "amount" "uint256" none) "123456789012345678901234567890" =
      Json.str "123456789012345678901234567890" :=
  ⟨(claim_C5 (ParamInfo.mk "amount" "uint256" none) "").2.1 (Or.inl (by decide)),
   (claim_C5 (ParamInfo.mk "amount" "uint256" none) "123456789012345678901234567890").2.2.2
     (by decide) (Or.inl (by decide)) (by decide) rfl⟩

/-- C2 fails as stated: the source compares the *untrimmed* lowercased
text to `"true"`, so the raw text `" true"` — whose trimmed form
compares case-insensitively equal to `"true"`, and which the claim
therefore maps to `Boolean(true)` — coerces to `Boolean(false)`. -/
theorem claim_C2_counterexample :
    jsToLower (jsTrim " true") = "true" ∧
    coerceParam (ParamInfo.mk "flag" "bool" none) " true" = Json.bool false :=
  ⟨rfl, rfl⟩

/-- C2 (amended): for a boolean parameter and non-empty raw text, the
coercion yields `Boolean(true)` exactly when the text itself (no
trimming) compares case-insensitively equal to `"true"`, and
`Boolean(false)` for any other text. -/
theorem claim_C2_amended (p : ParamInfo) (raw : String)
    (hne : raw ≠ "") (hb : p.param_type = "bool") :
    coerceParam p raw = Json.bool (jsToLower raw == "true") ∧
    (coerceParam p raw = Json.bool true ↔ jsToLower raw = "true") := by
  have h1 : coerceParam p raw = Json.bool (jsToLower raw == "true") := by
    simp [coerceParam, hne, hb]
  refine ⟨h1, ?_⟩
  rw [h1]
  simp

/-- Concrete instance of the amended C2: `"TRUE"` coerces to `true`,
`"false"` and `"1"` coerce to `false`. -/
theorem claim_C2_witness :
    coerceParam (ParamInfo.mk "flag" "bool" none) "TRUE" = Json.bool true ∧
    coerceParam (ParamInfo.mk "flag" "bool" none) "false" = Json.bool false ∧
    coerceParam (ParamInfo.mk "flag" "bool" none) "1" = Json.bool false := by
  refine ⟨?_, ?_, ?_⟩
  · exact ((claim_C2_amended (ParamInfo.mk "flag" "bool" none) "TRUE"
      (by decide) rfl).2).mpr rfl
  · rw [(claim_C2_amended (ParamInfo.mk "flag" "bool" none) "false" (by decide) rfl).1]
    rfl
  · rw [(claim_C2_amended (ParamInfo.mk "flag" "bool" none) "1" (by decide) rfl).1]
    rfl

/-- C1 fails as stated: for a `uint256[]` parameter with raw text
`"[1,2,3]"` the source returns the `JSON.parse` result as-is — an array
of JSON *numbers* — not the claimed ordered sequence of numeric *texts*
`"1"`, `"2"`, `"3"`; and for a `{to: address, amount: uint256}` tuple
whose literal omits `amount`, the parsed object is returned with the
field simply absent, not defaulted to `"0"`. -/
theorem claim_C1_counterexample :
    coerceParam (ParamInfo.mk "xs" "uint256[]" none) "[1,2,3]" =
      Json.arr [Json.num "1", Json.num "2", Json.num "3"] ∧
    coerceParam (ParamInfo.mk "xs" "uint256[]" none) "[1,2,3]" ≠
      Json.arr [Json.str "1", Json.str "2", Json.str "3"] ∧
    coerceParam
        (ParamInfo.mk "t" "tuple"
          (some [ParamInfo.mk "to" "address" none, ParamInfo.mk "amount" "uint256" none]))
        "\x7b\"to\":\"0xabc\"\x7d" =
      Json.obj [("to", Json.str "0xabc")] := by
  refine ⟨rfl, ?_, rfl⟩
  intro h
  rw [show coerceParam (ParamInfo.mk "xs" "uint256[]" none) "[1,2,3]" =
      Json.arr [Json.num "1", Json.num "2", Json.num "3"] from rfl] at h
  simp at h

/-- C1 (amended): for an array, tuple, or `components`-bearing parameter
whose non-empty raw text parses as a JSON literal, the coercion returns
the parsed value unchanged — no recursive per-element or per-field
coercion with child schemas is applied, and fields absent from a parsed
object literal remain absent. -/
theorem claim_C1_amended (p : ParamInfo) (raw : String) (j : Json)
    (hne : raw ≠ "") (hnb : p.param_type ≠ "bool")
    (hstruct : jsEndsWith p.param_type "[]" = true ∨ p.param_type = "tuple" ∨
      p.components.isSome = true)
    (hparse : jsonParse raw = some j) :
    coerceParam p raw = j := by
  have hcond : (jsEndsWith p.param_type "[]" || p.param_type == "tuple"
      || p.components.isSome) = true := by
    rcases hstruct with h | h | h <;> simp [h]
  simp [coerceParam, hne, hnb, hcond, hparse]

/-- Concrete instance of the amended C1: `"[1,2,3]"` on `uint256[]`
yields the parsed JSON array of numbers. -/
theorem claim_C1_witness :
    coerceParam (ParamInfo.mk "xs" "uint256[]" none) "[1,2,3]" =
      Json.arr [Json.num "1", Json.num "2", Json.num "3"] :=
  claim_C1_amended (ParamInfo.mk "xs" "uint256[]" none) "[1,2,3]"
    (Json.arr [Json.num "1", Json.num "2", Json.num "3"])
    (by decide) (by decide) (Or.inl (by decide)) rfl

/-- C4: the coercion is total by construction (`coerceParam` is a plain
function — the only potentially throwing source operation, `JSON.parse`,
sits inside `try`/`catch`, modelled by the `Option` returned by
`jsonParse`), and when the raw text of an array/tuple/`components`-bearing
parameter fails to parse as a JSON literal the raw text is returned
unchanged as opaque text. -/
theorem claim_C4 (p : ParamInfo) (raw : String)
    (hne : raw ≠ "") (hnb : p.param_type ≠ "bool")
    (hstruct : jsEndsWith p.param_type "[]" = true ∨ p.param_type = "tuple" ∨
      p.components.isSome = true)
    (hfail : jsonParse raw = none) :
    coerceParam p raw = Json.str raw := by
  have hcond : (jsEndsWith p.param_type "[]" || p.param_type == "tuple"
      || p.components.isSome) = true := by
    rcases hstruct with h | h | h <;> simp [h]
  simp [coerceParam, hne, hnb, hcond, hfail]

/-- Concrete instance of C4: `"not json"` on an array parameter comes
back unchanged. -/
theorem claim_C4_witness :
    coerceParam (ParamInfo.mk "xs" "uint256[]" none) "not json" =
      Json.str "not json" :=
  claim_C4 (ParamInfo.mk "xs" "uint256[]" none) "not json"
    (by decide) (by decide) (Or.inl (by decide)) rfl

/-- C3: dispatching a write with an empty wallet selection produces a
local validation failure carrying the missing-wallet message, and
neither the send nor the call collaborator is invoked. -/
theorem claim_C3 (selectedWallet valueField : String) (func : FunctionInfo)
    (params : String → Option String)
    (sendOut : FetchOutcome SendResponse) (callOut : FetchOutcome CallResponse)
    (hw : selectedWallet = "") :
    (handleSubmit true selectedWallet valueField func params sendOut callOut).result.success
        = false ∧
    (handleSubmit true selectedWallet valueField func params sendOut callOut).result.error
        = some "Please select a wallet" ∧
    (handleSubmit true selectedWallet valueField func params sendOut callOut).sendRequests
        = [] ∧
    (handleSubmit true selectedWallet valueField func params sendOut callOut).callRequests
        = [] := by
  subst hw
  simp [handleSubmit]

/-- Concrete instance of C3 with a one-parameter function and a send
collaborator that would succeed if it were ever reached. -/
theorem claim_C3_witness :
    (handleSubmit true "" "" (FunctionInfo.mk "transfer" "transfer(uint256)"
        [ParamInfo.mk "amount" "uint256" none] [] "nonpayable")
        (fun _ => none)
        (FetchOutcome.response true 200 "" (SendResponse.mk "0xhash" 1))
        (FetchOutcome.network JsThrown.other)).result.success = false ∧
    (handleSubmit true "" "" (FunctionInfo.mk "transfer" "transfer(uint256)"
        [ParamInfo.mk "amount" "uint256" none] [] "nonpayable")
        (fun _ => none)
        (FetchOutcome.response true 200 "" (SendResponse.mk "0xhash" 1))
        (FetchOutcome.network JsThrown.other)).result.error = some "Please select a wallet" ∧
    (handleSubmit true "" "" (FunctionInfo.mk "transfer" "transfer(uint256)"
        [ParamInfo.mk "amount" "uint256" none] [] "nonpayable")
        (fun _ => none)
        (FetchOutcome.response true 200 "" (SendResponse.mk "0xhash" 1))
        (FetchOutcome.network JsThrown.other)).sendRequests = [] ∧
    (handleSubmit true "" "" (FunctionInfo.mk "transfer" "transfer(uint256)"
        [ParamInfo.mk "amount" "uint256" none] [] "nonpayable")
        (fun _ => none)
        (FetchOutcome.response true 200 "" (SendResponse.mk "0xhash" 1))
        (FetchOutcome.network JsThrown.other)).callRequests = [] :=
  claim_C3 "" "" (FunctionInfo.mk "transfer" "transfer(uint256)"
    [ParamInfo.mk "amount" "uint256" none] [] "nonpayable")
    (fun _ => none)
    (FetchOutcome.response true 200 "" (SendResponse.mk "0xhash" 1))
    (FetchOutcome.network JsThrown.other) rfl

/-- C7: a successful write schedules exactly one history refresh for the
loaded deployment with a 2000 ms delay — and under the `setTimeout`
semantics such a refresh cannot run earlier than 2000 ms after being
scheduled —, the refresh replaces the displayed history list with the
collaborator's result, and a read submission, a failed send, or a
wallet-validation failure schedules none. -/
theorem claim_C7 (d : Deployment) (selectedWallet valueField : String)
    (func : FunctionInfo) (params : String → Option String)
    (sendOut : FetchOutcome SendResponse) (callOut : FetchOutcome CallResponse) :
    (∀ resp, postJson SendResponse sendOut = Except.ok resp → selectedWallet ≠ "" →
      refreshesAfterSubmit (some d)
          (handleSubmit true selectedWallet valueField func params sendOut callOut) =
        [ScheduledRefresh.mk d.id 2000]) ∧
    (refreshesAfterSubmit (some d)
        (handleSubmit false selectedWallet valueField func params sendOut callOut) = []) ∧
    (∀ e, postJson SendResponse sendOut = Except.error e →
      refreshesAfterSubmit (some d)
          (handleSubmit true selectedWallet valueField func params sendOut callOut) = []) ∧
    (refreshesAfterSubmit (some d)
        (handleSubmit true "" valueField func params sendOut callOut) = []) ∧
    (∀ (historyData displayed : List Json),
      loadHistory (Except.ok historyData) displayed = historyData) ∧
    (∀ setAt fireAt : Nat, timerMayFire setAt 2000 fireAt → setAt + 2000 ≤ fireAt) := by
  refine ⟨?_, ?_, ?_, ?_, fun _ _ => rfl, fun _ _ h => h⟩
  · intro resp hok hwne
    simp [handleSubmit, hwne, hok, refreshesAfterSubmit, handleTxSent]
  · cases hc : postJson CallResponse callOut <;>
      simp [handleSubmit, hc, refreshesAfterSubmit]
  · intro e herr
    by_cases hw : selectedWallet = "" <;>
      simp [handleSubmit, hw, herr, refreshesAfterSubmit]
  · simp [handleSubmit, refreshesAfterSubmit]

/-- Concrete instance of C7: a successful send of `"0xhash"` on
deployment 7 schedules exactly the refresh `(7, 2000 ms)`. -/
theorem claim_C7_witness :
    refreshesAfterSubmit (some (Deployment.mk 7))
        (handleSubmit true "alice" "" (FunctionInfo.mk "transfer" "transfer()" [] [] "nonpayable")
          (fun _ => none)
          (FetchOutcome.response true 200 "" (SendResponse.mk "0xhash" 1))
          (FetchOutcome.network JsThrown.other)) =
      [ScheduledRefresh.mk 7 2000] :=
  (claim_C7 (Deployment.mk 7) "alice" ""
    (FunctionInfo.mk "transfer" "transfer()" [] [] "nonpayable")
    (fun _ => none)
    (FetchOutcome.response true 200 "" (SendResponse.mk "0xhash" 1))
    (FetchOutcome.network JsThrown.other)).1
    (SendResponse.mk "0xhash" 1) rfl (by decide)

/-- C8: every collaborator failure — a rejected transport or a non-ok
HTTP response — is caught by the dispatcher and becomes a failure
result whose message is the thrown `Error`'s text (for non-ok responses:
the body text verbatim, or `"API error: <status>"` when the body is
empty), with `"Unknown error"` for a non-`Error` throw; `handleSubmit`
is a total function, so no failure escapes to the caller. -/
theorem claim_C8 (selectedWallet valueField : String) (func : FunctionInfo)
    (params : String → Option String)
    (sendOut : FetchOutcome SendResponse) (callOut : FetchOutcome CallResponse)
    (hw : selectedWallet ≠ "") :
    (∀ e, postJson SendResponse sendOut = Except.error e →
      (handleSubmit true selectedWallet valueField func params sendOut callOut).result =
        CallResult.mk false none none (some (caughtMessage e))) ∧
    (∀ e, postJson CallResponse callOut = Except.error e →
      (handleSubmit false selectedWallet valueField func params sendOut callOut).result =
        CallResult.mk false none none (some (caughtMessage e))) ∧
    (∀ (status : Nat) (bodyText : String) (parsed : SendResponse),
      postJson SendResponse (FetchOutcome.response false status bodyText parsed) =
        Except.error (JsThrown.error
          (if bodyText = "" then "API error: " ++ toString status else bodyText))) ∧
    (∀ m, caughtMessage (JsThrown.error m) = m) ∧
    caughtMessage JsThrown.other = "Unknown error" := by
  refine ⟨?_, ?_, ?_, fun _ => rfl, rfl⟩
  · intro e herr
    simp [handleSubmit, hw, herr]
  · intro e herr
    simp [handleSubmit, herr]
  · intro status bodyText parsed
    simp [postJson]

/-- Concrete instance of C8: a non-ok response with body
`"execution reverted"` surfaces that text verbatim, and a 500 response
with an empty body surfaces `"API error: 500"`. -/
theorem claim_C8_witness :
    (handleSubmit true "alice" "" (FunctionInfo.mk "transfer" "transfer()" [] [] "nonpayable")
        (fun _ => none)
        (FetchOutcome.response false 400 "execution reverted" (SendResponse.mk "" 0))
        (FetchOutcome.network JsThrown.other)).result =
      CallResult.mk false none none (some "execution reverted") ∧
    (handleSubmit true "alice" "" (FunctionInfo.mk "transfer" "transfer()" [] [] "nonpayable")
        (fun _ => none)
        (FetchOutcome.response false 500 "" (SendResponse.mk "" 0))
        (FetchOutcome.network JsThrown.other)).result =
      CallResult.mk false none none (some "API error: 500") ∧
    (handleSubmit true "alice" "" (FunctionInfo.mk "transfer" "transfer()" [] [] "nonpayable")
        (fun _ => none)
        (FetchOutcome.network JsThrown.other)
        (FetchOutcome.network JsThrown.other)).result =
      CallResult.mk false none none (some "Unknown error") := by
  refine ⟨?_, ?_, ?_⟩
  · exact (claim_C8 "alice" "" (FunctionInfo.mk "transfer" "transfer()" [] [] "nonpayable")
      (fun _ => none)
      (FetchOutcome.response false 400 "execution reverted" (SendResponse.mk "" 0))
      (FetchOutcome.network JsThrown.other) (by decide)).1
      (JsThrown.error "execution reverted") rfl
  · exact (claim_C8 "alice" "" (FunctionInfo.mk "transfer" "transfer()" [] [] "nonpayable")
      (fun _ => none)
      (FetchOutcome.response false 500 "" (SendResponse.mk "" 0))
      (FetchOutcome.network JsThrown.other) (by decide)).1
      (JsThrown.error "API error: 500") rfl
  · exact (claim_C8 "alice" "" (FunctionInfo.mk "transfer" "transfer()" [] [] "nonpayable")
      (fun _ => none)
      (FetchOutcome.network JsThrown.other)
      (FetchOutcome.network JsThrown.other) (by decide)).1
      JsThrown.other rfl

/-- C10: in all three submission flows (function-form send, deploy modal,
deploy page) an empty user-entered value field leaves the request's
optional `value` field absent (`undefined`), and a non-empty value string
is passed through unchanged. -/
theorem claim_C10 (selectedWallet valueField artifactName networkName : String)
    (func : FunctionInfo) (params : String → Option String)
    (sendOut : FetchOutcome SendResponse) (callOut : FetchOutcome CallResponse)
    (ctor : Option ConstructorInfo) (constructorArgs : String → Option String) :
    (∀ req ∈ (handleSubmit true selectedWallet valueField func params sendOut callOut).sendRequests,
      (valueField = "" → req.value = none) ∧
      (valueField ≠ "" → req.value = some valueField)) ∧
    ((valueField = "" →
      (handleDeployModalRequest artifactName networkName selectedWallet valueField
        ctor constructorArgs).value = none) ∧
     (valueField ≠ "" →
      (handleDeployModalRequest artifactName networkName selectedWallet valueField
        ctor constructorArgs).value = some valueField)) ∧
    ((valueField = "" →
      (handleDeployPageRequest artifactName networkName selectedWallet valueField
        ctor constructorArgs).value = none) ∧
     (valueField ≠ "" →
      (handleDeployPageRequest artifactName networkName selectedWallet valueField
        ctor constructorArgs).value = some valueField)) := by
  refine ⟨?_, ⟨?_, ?_⟩, ⟨?_, ?_⟩⟩
  · intro req hreq
    by_cases hw : selectedWallet = ""
    · simp [handleSubmit, hw] at hreq
    · cases hs : postJson SendResponse sendOut <;>
        · simp [handleSubmit, hw, hs] at hreq
          subst hreq
          constructor
          · intro hv; simp [hv]
          · intro hv; simp [hv]
  · intro hv; simp [handleDeployModalRequest, hv]
  · intro hv; simp [handleDeployModalRequest, hv]
  · intro hv; simp [handleDeployPageRequest, hv]
  · intro hv; simp [handleDeployPageRequest, hv]

/-- Concrete instance of C10: an empty value field yields a send request
with no `value`; the value `"1000"` is passed through unchanged in the
deploy-modal request. -/
theorem claim_C10_witness :
    (∀ req ∈ (handleSubmit true "alice" ""
        (FunctionInfo.mk "transfer" "transfer()" [] [] "payable")
        (fun _ => none)
        (FetchOutcome.response true 200 "" (SendResponse.mk "0xhash" 1))
        (FetchOutcome.network JsThrown.other)).sendRequests, req.value = none) ∧
    (handleDeployModalRequest "Token" "sepolia" "alice" "1000" none
      (fun _ => none)).value = some "1000" := by
  constructor
  · intro req hreq
    exact ((claim_C10 "alice" "" "Token" "sepolia"
      (FunctionInfo.mk "transfer" "transfer()" [] [] "payable")
      (fun _ => none)
      (FetchOutcome.response true 200 "" (SendResponse.mk "0xhash" 1))
      (FetchOutcome.network JsThrown.other) none (fun _ => none)).1 req hreq).1 rfl
  · exact ((claim_C10 "alice" "1000" "Token" "sepolia"
      (FunctionInfo.mk "transfer" "transfer()" [] [] "payable")
      (fun _ => none)
      (FetchOutcome.response true 200 "" (SendResponse.mk "0xhash" 1))
      (FetchOutcome.network JsThrown.other) none (fun _ => none)).2.1).2 (by decide)
